import Mathlib

/-!
Shallow embedding of the FastAPI shop service (`main.py` / `database.py`):
a product catalog and shopping carts held in a relational store, with the
endpoint handlers modelled as pure state-transition functions.  Machine
state is the set of committed rows; each handler either raises before any
commit (leaving the state unchanged) or commits explicit new states.
-/

namespace Shop

/-- A row of the `products` table (`database.py`, class `Product`).
`price` is only ever stored and copied by the handlers, never computed
with, so it is modelled as an integer count of minor currency units.
`stock` is a plain (possibly negative) integer, as in the source, where
no sign constraint is declared on the column or the request models. -/
structure Product where
  id : Nat
  name : String
  price : Int
  description : Option String
  stock : Int
  createdAt : Nat
deriving DecidableEq

/-- A row of the `carts` table (`database.py`, class `Cart`). -/
structure Cart where
  id : Nat
  createdAt : Nat
deriving DecidableEq

/-- A row of the `cart_items` table (`database.py`, class `CartItem`). -/
structure CartItem where
  id : Nat
  cartId : Nat
  productId : Nat
  quantity : Int
  createdAt : Nat
deriving DecidableEq

/-- The committed database state: the three tables plus the autoincrement
counters used for server-assigned primary keys. -/
structure DBState where
  products : List Product
  carts : List Cart
  cartItems : List CartItem
  nextProductId : Nat
  nextCartId : Nat
  nextItemId : Nat
deriving DecidableEq

/-- Request body of `POST /products/` (`main.py`, class `ProductCreate`). -/
structure ProductCreate where
  name : String
  price : Int
  description : Option String := none
  stock : Int
deriving DecidableEq

/-- Request body of `PUT /products/{id}` (`main.py`, class `ProductUpdate`):
every field optional, `none` meaning "not supplied". -/
structure ProductUpdate where
  name : Option String := none
  price : Option Int := none
  description : Option String := none
  stock : Option Int := none
deriving DecidableEq

/-- Request body of `POST /cart/{cart_id}/items` (`main.py`, class
`CartItemCreate`); the source declares `quantity: int = 1` with no
positivity constraint. -/
structure CartItemCreate where
  productId : Nat
  quantity : Int := 1
deriving DecidableEq

/-- Response shape for a product (`main.py`, class `ProductResponse`). -/
structure ProductResponse where
  id : Nat
  name : String
  price : Int
  description : Option String
  stock : Int
deriving DecidableEq

/-- Response shape for a cart item (`main.py`, class `CartItemResponse`). -/
structure CartItemResponse where
  id : Nat
  productId : Nat
  quantity : Int
  product : ProductResponse
  createdAt : Nat
deriving DecidableEq

/-- Response shape for a cart (`main.py`, class `CartResponse`). -/
structure CartResponse where
  id : Nat
  items : List CartItemResponse
  createdAt : Nat
deriving DecidableEq

/-- The two domain HTTPException classes raised by the handlers:
404 (NotFound) and 400 (Conflict / insufficient stock). -/
inductive HErr where
  | notFound (detail : String)
  | badRequest (detail : String)
deriving DecidableEq

/-- Result of a cart-mutating request.  `multipleResults` models the
`MultipleResultsFound` exception `scalar_one_or_none()` raises when more
than one row matches; `attributeError` models an unguarded attribute
access on a `None` result of `db.get` (no commit has happened in either
case, so the carried state is the unchanged pre-state). -/
inductive ApiResult where
  | ok (resp : CartResponse) (s : DBState)
  | httpError (e : HErr) (s : DBState)
  | multipleResults (s : DBState)
  | attributeError (s : DBState)
deriving DecidableEq

/-- The committed state after a request, whatever its outcome. -/
def ApiResult.state : ApiResult → DBState
  | .ok _ s => s
  | .httpError _ s => s
  | .multipleResults s => s
  | .attributeError s => s

/-- Whether the request returned 200. -/
def ApiResult.isOk : ApiResult → Bool
  | .ok _ _ => true
  | _ => false

/-- `db.get(Product, pid)`: primary-key lookup. -/
def getProduct? (s : DBState) (pid : Nat) : Option Product :=
  s.products.find? fun p => p.id == pid

/-- `db.get(Cart, cid)`: primary-key lookup. -/
def getCartRow? (s : DBState) (cid : Nat) : Option Cart :=
  s.carts.find? fun c => c.id == cid

/-- `db.get(CartItem, iid)`: primary-key lookup. -/
def getCartItem? (s : DBState) (iid : Nat) : Option CartItem :=
  s.cartItems.find? fun it => it.id == iid

/-- `select(CartItem).filter(cart_id == cid, product_id == pid)`. -/
def pairItems (s : DBState) (cid pid : Nat) : List CartItem :=
  s.cartItems.filter fun it => it.cartId == cid && it.productId == pid

/-- `ProductResponse.model_validate(product)`: the current snapshot of a
product row. -/
def ProductResponse.ofProduct (p : Product) : ProductResponse :=
  ⟨p.id, p.name, p.price, p.description, p.stock⟩

/-- The item-formatting loop shared by `get_cart`, `add_to_cart` and
`remove_from_cart`: every item of the cart is fetched, its product looked
up fresh, and items whose product lookup returns `None` are skipped
(`if item_product:`). -/
def formatCartItems (s : DBState) (cid : Nat) : List CartItemResponse :=
  (s.cartItems.filter fun it => it.cartId == cid).filterMap fun it =>
    (getProduct? s it.productId).map fun p =>
      ⟨it.id, it.productId, it.quantity, ProductResponse.ofProduct p, it.createdAt⟩

/-- `product.stock -= quantity` on the row with the given id
(`main.py` line 250). -/
def decStock (s : DBState) (pid : Nat) (q : Int) : DBState :=
  { s with products := s.products.map fun p =>
      if p.id == pid then { p with stock := p.stock - q } else p }

/-- `product.stock += quantity` on the row with the given id
(`main.py` line 299). -/
def restoreStock (s : DBState) (pid : Nat) (q : Int) : DBState :=
  { s with products := s.products.map fun p =>
      if p.id == pid then { p with stock := p.stock + q } else p }

/-- `POST /products/` (`main.py`, `create_product`): reject a duplicate
name with 400, otherwise insert a row with a server-assigned id. -/
def createProduct (s : DBState) (body : ProductCreate) : Except HErr (Product × DBState) :=
  if s.products.any (fun p => p.name == body.name) then
    .error (.badRequest "Product name already exists")
  else
    let p : Product :=
      ⟨s.nextProductId, body.name, body.price, body.description, body.stock, 0⟩
    .ok (p, { s with products := s.products ++ [p], nextProductId := s.nextProductId + 1 })

/-- The field assignments of `update_product`: each supplied field
overwrites the stored one, absent fields are left untouched. -/
def applyProductUpdate (p : Product) (body : ProductUpdate) : Product :=
  let p := match body.name with
    | some n => { p with name := n }
    | none => p
  let p := match body.description with
    | some d => { p with description := some d }
    | none => p
  let p := match body.price with
    | some pr => { p with price := pr }
    | none => p
  match body.stock with
  | some st => { p with stock := st }
  | none => p

/-- `PUT /products/{id}` (`main.py`, `update_product`): 404 when the id is
absent; when a name is supplied, the uniqueness query
`select(Product).filter(Product.name == product.name)` runs over ALL
products (the updated row itself included) and any hit raises 400;
otherwise the supplied fields are assigned and committed once. -/
def updateProduct (s : DBState) (id : Nat) (body : ProductUpdate) :
    Except HErr (Product × DBState) :=
  match getProduct? s id with
  | none => .error (.notFound "Desired product does not exist!")
  | some dbp =>
    if body.name.isSome && s.products.any (fun q => some q.name == body.name) then
      .error (.badRequest "Cannot update the name, because name already exists!")
    else
      let p := applyProductUpdate dbp body
      .ok (p, { s with products := s.products.map fun q => if q.id == dbp.id then p else q })

/-- `DELETE /products/{id}` (`main.py`, `delete_product`): 404 when absent,
otherwise remove the row (no cascade touches cart items). -/
def deleteProduct (s : DBState) (id : Nat) : Except HErr DBState :=
  match getProduct? s id with
  | none => .error (.notFound "Desired product not found")
  | some _ => .ok { s with products := s.products.filter fun p => p.id != id }

/-- `POST /cart` (`main.py`, `create_cart`): insert an empty cart. -/
def createCart (s : DBState) : Cart × DBState :=
  let c : Cart := ⟨s.nextCartId, 0⟩
  (c, { s with carts := s.carts ++ [c], nextCartId := s.nextCartId + 1 })

/-- `GET /cart/{cart_id}` (`main.py`, `get_cart`): 404 when the cart is
absent, otherwise the cart with its items formatted by `formatCartItems`. -/
def getCart (s : DBState) (cid : Nat) : Except HErr CartResponse :=
  match getCartRow? s cid with
  | none => .error (.notFound "Cart not found")
  | some cart => .ok ⟨cart.id, formatCartItems s cid, cart.createdAt⟩

/-- `POST /cart/{cart_id}/items` (`main.py`, `add_to_cart`), together with
its commit trace: the returned list holds the committed states in order,
one per `db.commit()` executed.  On every failure path the handler raises
before any commit and the trace is empty.  On the success paths the item
mutation (merge into the existing row, or insertion of a new row) is
committed FIRST (lines 235 / 245) and the stock decrement is committed by
a SECOND, separate commit (line 251), so the trace has two entries. -/
def addToCartRun (s : DBState) (cid : Nat) (item : CartItemCreate) :
    ApiResult × List DBState :=
  match getCartRow? s cid with
  | none => (.httpError (.notFound "Cart not found") s, [])
  | some cart =>
    match getProduct? s item.productId with
    | none => (.httpError (.notFound "Product not found") s, [])
    | some product =>
      if product.stock < item.quantity then
        (.httpError (.badRequest "Not enough stock") s, [])
      else
        match pairItems s cid item.productId with
        | [] =>
          let ci : CartItem := ⟨s.nextItemId, cid, item.productId, item.quantity, 0⟩
          let s1 : DBState :=
            { s with cartItems := s.cartItems ++ [ci], nextItemId := s.nextItemId + 1 }
          let s2 := decStock s1 item.productId item.quantity
          (.ok ⟨cart.id, formatCartItems s2 cid, cart.createdAt⟩ s2, [s1, s2])
        | [existing] =>
          if product.stock < existing.quantity + item.quantity then
            (.httpError (.badRequest "Not enough stock") s, [])
          else
            let s1 : DBState :=
              { s with cartItems := s.cartItems.map fun it =>
                  if it.id == existing.id then
                    { it with quantity := it.quantity + item.quantity }
                  else it }
            let s2 := decStock s1 item.productId item.quantity
            (.ok ⟨cart.id, formatCartItems s2 cid, cart.createdAt⟩ s2, [s1, s2])
        | _ :: _ :: _ => (.multipleResults s, [])

/-- The outcome of `add_to_cart` (final committed state on success). -/
def addToCart (s : DBState) (cid : Nat) (item : CartItemCreate) : ApiResult :=
  (addToCartRun s cid item).1

/-- The commit trace of `add_to_cart`: the committed states in order, one
per `db.commit()` executed. -/
def addToCartCommits (s : DBState) (cid : Nat) (item : CartItemCreate) : List DBState :=
  (addToCartRun s cid item).2

/-- `DELETE /cart/{cart_id}/items/{item_id}` (`main.py`,
`remove_from_cart`): 404 when the cart is absent or the item is absent or
belongs to another cart; then `db.get(Product, cart_item.product_id)` is
dereferenced WITHOUT a `None` check (line 299), so a dangling product
reference hits `attributeError`; otherwise the stock restore and the item
deletion are committed together by the single commit at line 303. -/
def removeFromCart (s : DBState) (cid iid : Nat) : ApiResult :=
  match getCartRow? s cid with
  | none => .httpError (.notFound "Cart not found") s
  | some cart =>
    match getCartItem? s iid with
    | none => .httpError (.notFound "Cart item not found") s
    | some ci =>
      if ci.cartId != cid then .httpError (.notFound "Cart item not found") s
      else
        match getProduct? s ci.productId with
        | none => .attributeError s
        | some _ =>
          let s1 := restoreStock s ci.productId ci.quantity
          let s2 : DBState :=
            { s1 with cartItems := s1.cartItems.filter fun it => it.id != iid }
          .ok ⟨cart.id, formatCartItems s2 cid, cart.createdAt⟩ s2

/-- One client request against the service, for reachability statements. -/
inductive Op where
  | createProductOp (body : ProductCreate)
  | updateProductOp (id : Nat) (body : ProductUpdate)
  | deleteProductOp (id : Nat)
  | createCartOp
  | addItemOp (cid : Nat) (body : CartItemCreate)
  | removeItemOp (cid iid : Nat)
deriving DecidableEq

/-- The committed state after one request completes (a failed request
commits nothing and leaves the state unchanged). -/
def step (s : DBState) : Op → DBState
  | .createProductOp body =>
    match createProduct s body with
    | .ok (_, s') => s'
    | .error _ => s
  | .updateProductOp id body =>
    match updateProduct s id body with
    | .ok (_, s') => s'
    | .error _ => s
  | .deleteProductOp id =>
    match deleteProduct s id with
    | .ok s' => s'
    | .error _ => s
  | .createCartOp => (createCart s).2
  | .addItemOp cid body => (addToCart s cid body).state
  | .removeItemOp cid iid => (removeFromCart s cid iid).state

/-- The state reached by a sequence of requests. -/
def run (s : DBState) (ops : List Op) : DBState :=
  ops.foldl step s

/-- The empty store the service starts from. -/
def initState : DBState :=
  ⟨[], [], [], 1, 1, 1⟩

/-- The stock of the product with the given id, when it exists. -/
def stockOf (s : DBState) (pid : Nat) : Option Int :=
  (getProduct? s pid).map fun p => p.stock

/-! Helper lemmas -/

theorem applyProductUpdate_id (p : Product) (body : ProductUpdate) :
    (applyProductUpdate p body).id = p.id := by
  unfold applyProductUpdate
  cases body.name <;> cases body.description <;> cases body.price <;> cases body.stock <;> rfl

theorem applyProductUpdate_stock (p : Product) (body : ProductUpdate) :
    (applyProductUpdate p body).stock = body.stock.getD p.stock := by
  unfold applyProductUpdate
  cases body.name <;> cases body.description <;> cases body.price <;> cases body.stock <;> rfl

theorem applyProductUpdate_name (p : Product) (body : ProductUpdate) (h : body.name = none) :
    (applyProductUpdate p body).name = p.name := by
  unfold applyProductUpdate
  rw [h]
  cases body.description <;> cases body.price <;> cases body.stock <;> rfl

theorem applyProductUpdate_price (p : Product) (body : ProductUpdate) (h : body.price = none) :
    (applyProductUpdate p body).price = p.price := by
  unfold applyProductUpdate
  rw [h]
  cases body.name <;> cases body.description <;> cases body.stock <;> rfl

theorem applyProductUpdate_description (p : Product) (body : ProductUpdate)
    (h : body.description = none) :
    (applyProductUpdate p body).description = p.description := by
  unfold applyProductUpdate
  rw [h]
  cases body.name <;> cases body.price <;> cases body.stock <;> rfl

theorem applyProductUpdate_stock_none (p : Product) (body : ProductUpdate)
    (h : body.stock = none) :
    (applyProductUpdate p body).stock = p.stock := by
  rw [applyProductUpdate_stock, h]
  rfl

/-- `find?` by a key commutes with a key-preserving conditional rewrite of
the row with that key. -/
theorem find?_map_ite {α : Type} (key : α → Nat) (k : Nat) (f : α → α)
    (hf : ∀ a, key a = k → key (f a) = k) (l : List α) :
    (l.map fun a => if key a == k then f a else a).find? (fun a => key a == k)
      = (l.find? fun a => key a == k).map f := by
  induction l with
  | nil => rfl
  | cons a l ih =>
    by_cases h : (key a == k) = true
    · rw [List.map_cons, if_pos h]
      rw [@List.find?_cons_of_pos α (fun a => key a == k) (f a) _
          (by show (key (f a) == k) = true
              have ha : key a = k := by simpa using h
              simpa using hf a ha),
        @List.find?_cons_of_pos α (fun a => key a == k) a l h]
      rfl
    · rw [List.map_cons, if_neg h]
      rw [@List.find?_cons_of_neg α (fun a => key a == k) a _ h,
        @List.find?_cons_of_neg α (fun a => key a == k) a l h, ih]

theorem getProduct?_decStock (s : DBState) (pid : Nat) (q : Int) :
    getProduct? (decStock s pid q) pid
      = (getProduct? s pid).map fun p => { p with stock := p.stock - q } := by
  exact @find?_map_ite Product (fun p => p.id) pid
    (fun p => { p with stock := p.stock - q }) (fun _ ha => ha) s.products

theorem getProduct?_restoreStock (s : DBState) (pid : Nat) (q : Int) :
    getProduct? (restoreStock s pid q) pid
      = (getProduct? s pid).map fun p => { p with stock := p.stock + q } := by
  exact @find?_map_ite Product (fun p => p.id) pid
    (fun p => { p with stock := p.stock + q }) (fun _ ha => ha) s.products

/-- In a table whose rows have pairwise distinct ids, a shared id forces
row equality. -/
theorem eq_of_pairwise_ids {l : List Product}
    (h : l.Pairwise fun a b => a.id ≠ b.id) {a b : Product}
    (ha : a ∈ l) (hb : b ∈ l) (hid : a.id = b.id) : a = b := by
  induction l with
  | nil => cases ha
  | cons x l ih =>
    rcases List.pairwise_cons.mp h with ⟨hx, hl⟩
    rcases List.mem_cons.mp ha with rfl | ha'
    · rcases List.mem_cons.mp hb with rfl | hb'
      · rfl
      · exact absurd hid (hx b hb')
    · rcases List.mem_cons.mp hb with rfl | hb'
      · exact absurd hid.symm (hx a ha')
      · exact ih hl ha' hb'

/-! Concrete stores used by the closed theorems -/

/-- A store holding one product (id 1, stock 5) and one empty cart (id 1). -/
def exBase : DBState := ⟨[⟨1, "w", 999, none, 5, 0⟩], [⟨1, 0⟩], [], 2, 2, 1⟩

/-- The state committed by the FIRST commit of `add_to_cart` on `exBase`
with quantity 3: the new cart item is stored, the stock not yet
decremented. -/
def exMid : DBState := ⟨[⟨1, "w", 999, none, 5, 0⟩], [⟨1, 0⟩], [⟨1, 1, 1, 3, 0⟩], 2, 2, 2⟩

/-- The state committed by the SECOND commit of the same request. -/
def exFin : DBState := ⟨[⟨1, "w", 999, none, 2, 0⟩], [⟨1, 0⟩], [⟨1, 1, 1, 3, 0⟩], 2, 2, 2⟩

/-- A store where cart 1 already holds a line of 3 units of product 1,
whose stock is 7. -/
def exMerge : DBState := ⟨[⟨1, "w", 999, none, 7, 0⟩], [⟨1, 0⟩], [⟨1, 1, 1, 3, 0⟩], 2, 2, 2⟩

/-- A reachable store with a dangling item: product 1 is added to cart 1
and then deleted from the catalog. -/
def exDangling : DBState :=
  run initState
    [.createProductOp ⟨"w", 999, none, 5⟩, .createCartOp, .addItemOp 1 ⟨1, 2⟩,
     .deleteProductOp 1]

/-- `exBase` after `updateProduct` supplied only a new price. -/
def exPriced : DBState := ⟨[⟨1, "w", 500, none, 5, 0⟩], [⟨1, 0⟩], [], 2, 2, 1⟩

/-! Claim theorems -/

/-- Claim C1: the spec requires the cart-item mutation and the stock
decrement of `add_to_cart` to be committed atomically, both or neither.
The handler instead runs TWO separate commits: evaluated on a concrete
store, the commit trace has two entries and the first committed state
already holds the new cart item while the stock is still undecremented,
so it differs from both the pre-state and the final state — a failure
between the commits leaves exactly this partial state. -/
theorem addToCart_two_commits_partial_state :
    addToCartCommits exBase 1 ⟨1, 3⟩ = [exMid, exFin] ∧
    exMid.cartItems = [⟨1, 1, 1, 3, 0⟩] ∧
    stockOf exMid 1 = some 5 ∧
    stockOf exFin 1 = some 2 ∧
    exMid ≠ exBase ∧ exMid ≠ exFin := by
  refine ⟨rfl, rfl, rfl, rfl, ?_, ?_⟩ <;> decide

/-- Claim C2 counterexample: product 1 exists with name "w", and updating
it with its OWN current name does not succeed — it fails with the 400
name-conflict error, because the uniqueness query does not exclude the
row being updated. -/
theorem updateProduct_own_name_conflict_cex :
    getProduct? exBase 1 = some ⟨1, "w", 999, none, 5, 0⟩ ∧
    updateProduct exBase 1 { name := some "w" } =
      .error (.badRequest "Cannot update the name, because name already exists!") :=
  ⟨rfl, rfl⟩

/-- Claim C2 (amended): whenever the supplied name equals the current name
of the product being updated (hence equals the name of SOME stored
product), `update_product` fails with the 400 name-conflict error; the
self-collision case does not succeed. -/
theorem updateProduct_own_name_conflict (s : DBState) (id : Nat) (p : Product)
    (body : ProductUpdate) (hp : getProduct? s id = some p)
    (hn : body.name = some p.name) :
    updateProduct s id body =
      .error (.badRequest "Cannot update the name, because name already exists!") := by
  have hmem : p ∈ s.products := List.mem_of_find?_eq_some hp
  have hany : (s.products.any fun q => some q.name == body.name) = true :=
    List.any_eq_true.mpr ⟨p, hmem, by rw [hn]; simp⟩
  have hcond : (body.name.isSome && s.products.any fun q => some q.name == body.name) = true :=
    Bool.and_eq_true _ _ |>.mpr ⟨by rw [hn]; rfl, hany⟩
  simp only [updateProduct, hp, if_pos hcond]

/-- Witness for the amended claim C2 at a concrete store. -/
theorem updateProduct_own_name_conflict_witness :
    getProduct? exBase 1 = some ⟨1, "w", 999, none, 5, 0⟩ ∧
    ({ name := some "w" } : ProductUpdate).name = some "w" ∧
    updateProduct exBase 1 { name := some "w" } =
      .error (.badRequest "Cannot update the name, because name already exists!") :=
  ⟨rfl, rfl,
    updateProduct_own_name_conflict exBase 1 ⟨1, "w", 999, none, 5, 0⟩
      { name := some "w" } rfl rfl⟩

/-- Claim C3 counterexample: `create_product` performs no sign check on
the supplied stock, so a single `createProduct` call reaches a state
whose product has stock `-1`. -/
theorem createProduct_negative_stock_cex :
    stockOf (run initState [.createProductOp ⟨"w", 999, none, -1⟩]) 1 = some (-1) ∧
    ¬ (0 : Int) ≤ -1 := by
  exact ⟨rfl, by decide⟩

/-- Claim C4 counterexample: cart 1 already holds 3 units of product 1
(stock 7).  A further `addItem` of quantity 2 succeeds (stock 5), but
`removeItem` on the resulting merged item restores the WHOLE line
quantity 5, leaving stock 10 — not the pre-add value 7. -/
theorem add_remove_merge_overshoot_cex :
    stockOf exMerge 1 = some 7 ∧
    (addToCart exMerge 1 ⟨1, 2⟩).isOk = true ∧
    (removeFromCart ((addToCart exMerge 1 ⟨1, 2⟩).state) 1 1).isOk = true ∧
    stockOf ((removeFromCart ((addToCart exMerge 1 ⟨1, 2⟩).state) 1 1).state) 1 = some 10 ∧
    (10 : Int) ≠ 7 := by
  refine ⟨rfl, rfl, rfl, rfl, ?_⟩
  decide

/-- Claim C5: when the requested quantity exceeds the product's stock,
`add_to_cart` raises the 400 insufficient-stock error before any commit,
leaving the whole store — stock and cart items — unchanged. -/
theorem addToCart_insufficient_stock_fails (s : DBState) (cid : Nat)
    (body : CartItemCreate) (cart : Cart) (p : Product)
    (hc : getCartRow? s cid = some cart)
    (hp : getProduct? s body.productId = some p)
    (hq : p.stock < body.quantity) :
    addToCart s cid body = .httpError (.badRequest "Not enough stock") s := by
  simp only [addToCart, addToCartRun, hc, hp, if_pos hq]

/-- Witness for claim C5 at a concrete store. -/
theorem addToCart_insufficient_stock_fails_witness :
    getCartRow? exBase 1 = some ⟨1, 0⟩ ∧
    getProduct? exBase 1 = some ⟨1, "w", 999, none, 5, 0⟩ ∧
    (5 : Int) < 10 ∧
    addToCart exBase 1 ⟨1, 10⟩ = .httpError (.badRequest "Not enough stock") exBase :=
  ⟨rfl, rfl, by decide,
    addToCart_insufficient_stock_fails exBase 1 ⟨1, 10⟩ ⟨1, 0⟩
      ⟨1, "w", 999, none, 5, 0⟩ rfl rfl (by decide)⟩

/-- Claim C7 counterexample: `add_to_cart` accepts quantity 0 (the request
model declares no positivity bound) and commits a CartItem whose quantity
is 0, which is not a positive integer. -/
theorem addToCart_zero_quantity_cex :
    (addToCart exBase 1 ⟨1, 0⟩).isOk = true ∧
    (addToCart exBase 1 ⟨1, 0⟩).state.cartItems = [⟨1, 1, 1, 0, 0⟩] ∧
    ¬ (1 : Int) ≤ 0 := by
  refine ⟨rfl, rfl, ?_⟩
  decide

/-- Claim C8 counterexample: in the reachable store `exDangling`, cart 1
has exactly one current CartItem, yet `get_cart` answers with an EMPTY
item list, silently dropping the item whose referenced product was
deleted. -/
theorem getCart_drops_dangling_item_cex :
    (exDangling.cartItems.filter fun it => it.cartId == 1) = [⟨1, 1, 1, 2, 0⟩] ∧
    getCartRow? exDangling 1 = some ⟨1, 0⟩ ∧
    getCart exDangling 1 = .ok ⟨1, [], 0⟩ :=
  ⟨rfl, rfl, rfl⟩

/-- Claim C9: fields absent from the `update_product` body keep exactly
their previous values; only supplied fields are mutated, and the updated
row is the one stored for that id afterwards. -/
theorem updateProduct_frame (s : DBState) (id : Nat) (body : ProductUpdate)
    (p p' : Product) (s' : DBState)
    (hp : getProduct? s id = some p)
    (h : updateProduct s id body = .ok (p', s')) :
    p'.id = p.id ∧
    (body.name = none → p'.name = p.name) ∧
    (body.price = none → p'.price = p.price) ∧
    (body.description = none → p'.description = p.description) ∧
    (body.stock = none → p'.stock = p.stock) ∧
    getProduct? s' id = some p' := by
  have hid : p.id = id := by simpa using List.find?_some hp
  simp only [updateProduct, hp] at h
  split at h
  · cases h
  · simp only [Except.ok.injEq, Prod.mk.injEq] at h
    obtain ⟨h1, h2⟩ := h
    subst h1 h2
    refine ⟨applyProductUpdate_id p body,
      fun hn => applyProductUpdate_name p body hn,
      fun hpr => applyProductUpdate_price p body hpr,
      fun hd => applyProductUpdate_description p body hd,
      fun hst => applyProductUpdate_stock_none p body hst, ?_⟩
    show (s.products.map fun q => if q.id == p.id then applyProductUpdate p body else q).find?
        (fun q => q.id == id) = some (applyProductUpdate p body)
    rw [hid]
    rw [@find?_map_ite Product (fun q => q.id) id (fun _ => applyProductUpdate p body)
      (fun a _ => (applyProductUpdate_id p body).trans hid) s.products]
    rw [show s.products.find? (fun q => q.id == id) = some p from hp]
    rfl

/-- Witness for claim C9: only the price is supplied, and name,
description and stock survive untouched. -/
theorem updateProduct_frame_witness :
    getProduct? exBase 1 = some ⟨1, "w", 999, none, 5, 0⟩ ∧
    updateProduct exBase 1 { price := some 500 } = .ok (⟨1, "w", 500, none, 5, 0⟩, exPriced) ∧
    ((⟨1, "w", 500, none, 5, 0⟩ : Product).id = (⟨1, "w", 999, none, 5, 0⟩ : Product).id ∧
      (({ price := some 500 } : ProductUpdate).name = none →
        (⟨1, "w", 500, none, 5, 0⟩ : Product).name = (⟨1, "w", 999, none, 5, 0⟩ : Product).name) ∧
      (({ price := some 500 } : ProductUpdate).price = none →
        (⟨1, "w", 500, none, 5, 0⟩ : Product).price = (⟨1, "w", 999, none, 5, 0⟩ : Product).price) ∧
      (({ price := some 500 } : ProductUpdate).description = none →
        (⟨1, "w", 500, none, 5, 0⟩ : Product).description = (⟨1, "w", 999, none, 5, 0⟩ : Product).description) ∧
      (({ price := some 500 } : ProductUpdate).stock = none →
        (⟨1, "w", 500, none, 5, 0⟩ : Product).stock = (⟨1, "w", 999, none, 5, 0⟩ : Product).stock) ∧
      getProduct? exPriced 1 = some ⟨1, "w", 500, none, 5, 0⟩) :=
  ⟨rfl, rfl,
    updateProduct_frame exBase 1 { price := some 500 } ⟨1, "w", 999, none, 5, 0⟩
      ⟨1, "w", 500, none, 5, 0⟩ exPriced rfl rfl⟩

/-! Reachability invariants for C3 and C7 -/

/-- Table well-formedness plus the sign invariant the spec asserts:
product ids are pairwise distinct and below the autoincrement counter,
stocks are non-negative, item quantities are non-negative. -/
def StockInv (s : DBState) : Prop :=
  s.products.Pairwise (fun a b => a.id ≠ b.id) ∧
  (∀ p ∈ s.products, p.id < s.nextProductId) ∧
  (∀ p ∈ s.products, 0 ≤ p.stock) ∧
  (∀ it ∈ s.cartItems, 0 ≤ it.quantity)

instance (s : DBState) : Decidable (StockInv s) :=
  inferInstanceAs (Decidable (_ ∧ _ ∧ _ ∧ _))

/-- Requests whose client-supplied numbers are non-negative (the
validation the source never performs). -/
def GoodOp : Op → Prop
  | .createProductOp b => 0 ≤ b.stock
  | .updateProductOp _ b => 0 ≤ b.stock.getD 0
  | .addItemOp _ b => 0 ≤ b.quantity
  | _ => True

instance (op : Op) : Decidable (GoodOp op) :=
  match op with
  | .createProductOp b => inferInstanceAs (Decidable (0 ≤ b.stock))
  | .updateProductOp _ b => inferInstanceAs (Decidable (0 ≤ b.stock.getD 0))
  | .deleteProductOp _ => inferInstanceAs (Decidable True)
  | .createCartOp => inferInstanceAs (Decidable True)
  | .addItemOp _ b => inferInstanceAs (Decidable (0 ≤ b.quantity))
  | .removeItemOp _ _ => inferInstanceAs (Decidable True)

theorem stockInv_createProduct (s : DBState) (b : ProductCreate)
    (h : StockInv s) (hb : 0 ≤ b.stock) : StockInv (step s (.createProductOp b)) := by
  obtain ⟨hpw, hbound, hstock, hqty⟩ := h
  by_cases hc : (s.products.any fun p => p.name == b.name) = true
  · simp only [step, createProduct, if_pos hc]
    exact ⟨hpw, hbound, hstock, hqty⟩
  · simp only [step, createProduct, if_neg hc]
    refine ⟨?_, ?_, ?_, hqty⟩
    · refine List.pairwise_append.mpr ⟨hpw, List.pairwise_singleton _ _, ?_⟩
      intro a ha c hc'
      rcases List.mem_singleton.mp hc' with rfl
      exact Nat.ne_of_lt (hbound a ha)
    · intro p hp
      rcases List.mem_append.mp hp with hp' | hp'
      · exact Nat.lt_trans (hbound p hp') (Nat.lt_succ_self _)
      · rcases List.mem_singleton.mp hp' with rfl
        exact Nat.lt_succ_self _
    · intro p hp
      rcases List.mem_append.mp hp with hp' | hp'
      · exact hstock p hp'
      · rcases List.mem_singleton.mp hp' with rfl
        exact hb

theorem stockInv_updateProduct (s : DBState) (id : Nat) (b : ProductUpdate)
    (h : StockInv s) (hb : 0 ≤ b.stock.getD 0) :
    StockInv (step s (.updateProductOp id b)) := by
  obtain ⟨hpw, hbound, hstock, hqty⟩ := h
  cases hp : getProduct? s id with
  | none =>
    simp only [step, updateProduct, hp]
    exact ⟨hpw, hbound, hstock, hqty⟩
  | some dbp =>
    by_cases hc : (b.name.isSome && s.products.any fun q => some q.name == b.name) = true
    · simp only [step, updateProduct, hp, if_pos hc]
      exact ⟨hpw, hbound, hstock, hqty⟩
    · simp only [step, updateProduct, hp, if_neg hc]
      have hgid : ∀ q : Product,
          (if q.id == dbp.id then applyProductUpdate dbp b else q).id = q.id := by
        intro q
        split
        · next hq => rw [applyProductUpdate_id]; exact (Nat.eq_of_beq_eq_true (by simpa using hq)).symm
        · rfl
      refine ⟨?_, ?_, ?_, hqty⟩
      · refine List.pairwise_map.mpr (hpw.imp ?_)
        intro a c hac
        rw [hgid, hgid]
        exact hac
      · intro p hp'
        rcases List.mem_map.mp hp' with ⟨q, hq, rfl⟩
        rw [hgid]
        exact hbound q hq
      · intro p hp'
        rcases List.mem_map.mp hp' with ⟨q, hq, rfl⟩
        split
        · rw [applyProductUpdate_stock]
          cases hst : b.stock with
          | none => exact hstock dbp (List.mem_of_find?_eq_some hp)
          | some st => rw [hst] at hb; exact hb
        · exact hstock q hq

theorem stockInv_deleteProduct (s : DBState) (id : Nat) (h : StockInv s) :
    StockInv (step s (.deleteProductOp id)) := by
  obtain ⟨hpw, hbound, hstock, hqty⟩ := h
  cases hp : getProduct? s id with
  | none =>
    simp only [step, deleteProduct, hp]
    exact ⟨hpw, hbound, hstock, hqty⟩
  | some dbp =>
    simp only [step, deleteProduct, hp]
    refine ⟨List.Pairwise.sublist (List.filter_sublist _) hpw, ?_, ?_, hqty⟩
    · intro p hp'
      exact hbound p (List.mem_filter.mp hp').1
    · intro p hp'
      exact hstock p (List.mem_filter.mp hp').1

theorem stockInv_createCart (s : DBState) (h : StockInv s) :
    StockInv (step s .createCartOp) := by
  obtain ⟨hpw, hbound, hstock, hqty⟩ := h
  exact ⟨hpw, hbound, hstock, hqty⟩

theorem stockInv_addItem (s : DBState) (cid : Nat) (b : CartItemCreate)
    (h : StockInv s) (hb : 0 ≤ b.quantity) : StockInv (step s (.addItemOp cid b)) := by
  obtain ⟨hpw, hbound, hstock, hqty⟩ := h
  simp only [step, addToCart, addToCartRun]
  cases hc : getCartRow? s cid with
  | none => exact ⟨hpw, hbound, hstock, hqty⟩
  | some cart =>
    cases hp : getProduct? s b.productId with
    | none => exact ⟨hpw, hbound, hstock, hqty⟩
    | some product =>
      have hpid : product.id = b.productId := Nat.eq_of_beq_eq_true (by simpa using List.find?_some hp)
      have hpmem : product ∈ s.products := List.mem_of_find?_eq_some hp
      by_cases hq : product.stock < b.quantity
      · simp only [if_pos hq]
        exact ⟨hpw, hbound, hstock, hqty⟩
      · simp only [if_neg hq]
        cases hpi : pairItems s cid b.productId with
        | nil =>
          refine ⟨?_, ?_, ?_, ?_⟩
          · refine List.pairwise_map.mpr (hpw.imp ?_)
            intro a c hac
            dsimp only
            split <;> split <;> simpa using hac
          · intro p hp'
            rcases List.mem_map.mp hp' with ⟨q, hq', rfl⟩
            dsimp only
            split <;> exact hbound q hq'
          · intro p hp'
            rcases List.mem_map.mp hp' with ⟨q, hq', rfl⟩
            split
            · next hqid =>
              have : q = product := eq_of_pairwise_ids hpw hq' hpmem
                ((Nat.eq_of_beq_eq_true (by simpa using hqid)).trans hpid.symm)
              subst this
              have := hstock q hq'
              show (0 : Int) ≤ q.stock - b.quantity
              omega
            · exact hstock q hq'
          · intro it hit
            rcases List.mem_append.mp hit with hit' | hit'
            · exact hqty it hit'
            · rcases List.mem_singleton.mp hit' with rfl
              exact hb
        | cons e rest =>
          have hemem : e ∈ s.cartItems := by
            have : e ∈ pairItems s cid b.productId := by rw [hpi]; exact List.mem_cons_self e rest
            exact (List.mem_filter.mp this).1
          cases rest with
          | nil =>
            by_cases hq2 : product.stock < e.quantity + b.quantity
            · simp only [if_pos hq2]
              exact ⟨hpw, hbound, hstock, hqty⟩
            · simp only [if_neg hq2]
              refine ⟨?_, ?_, ?_, ?_⟩
              · refine List.pairwise_map.mpr (hpw.imp ?_)
                intro a c hac
                dsimp only
                split <;> split <;> simpa using hac
              · intro p hp'
                rcases List.mem_map.mp hp' with ⟨q, hq', rfl⟩
                split <;> exact hbound q hq'
              · intro p hp'
                rcases List.mem_map.mp hp' with ⟨q, hq', rfl⟩
                split
                · next hqid =>
                  have : q = product := eq_of_pairwise_ids hpw hq' hpmem
                    ((Nat.eq_of_beq_eq_true (by simpa using hqid)).trans hpid.symm)
                  subst this
                  have h1 := hstock q hq'
                  have h2 := hqty e hemem
                  show (0 : Int) ≤ q.stock - b.quantity
                  omega
                · exact hstock q hq'
              · intro it hit
                rcases List.mem_map.mp hit with ⟨it', hit', rfl⟩
                split
                · have h1 := hqty it' hit'
                  dsimp only
                  omega
                · exact hqty it' hit'
          | cons e2 rest2 =>
            exact ⟨hpw, hbound, hstock, hqty⟩

theorem stockInv_removeItem (s : DBState) (cid iid : Nat) (h : StockInv s) :
    StockInv (step s (.removeItemOp cid iid)) := by
  obtain ⟨hpw, hbound, hstock, hqty⟩ := h
  simp only [step, removeFromCart]
  cases hc : getCartRow? s cid with
  | none => exact ⟨hpw, hbound, hstock, hqty⟩
  | some cart =>
    cases hi : getCartItem? s iid with
    | none => exact ⟨hpw, hbound, hstock, hqty⟩
    | some ci =>
      have hcimem : ci ∈ s.cartItems := List.mem_of_find?_eq_some hi
      by_cases hm : (ci.cartId != cid) = true
      · simp only [if_pos hm]
        exact ⟨hpw, hbound, hstock, hqty⟩
      · simp only [if_neg hm]
        cases hp : getProduct? s ci.productId with
        | none => exact ⟨hpw, hbound, hstock, hqty⟩
        | some product =>
          refine ⟨?_, ?_, ?_, ?_⟩
          · refine List.pairwise_map.mpr (hpw.imp ?_)
            intro a c hac
            dsimp only
            split <;> split <;> simpa using hac
          · intro p hp'
            rcases List.mem_map.mp hp' with ⟨q, hq', rfl⟩
            dsimp only
            split <;> exact hbound q hq'
          · intro p hp'
            rcases List.mem_map.mp hp' with ⟨q, hq', rfl⟩
            split
            · have h1 := hstock q hq'
              have h2 := hqty ci hcimem
              dsimp only
              omega
            · exact hstock q hq'
          · intro it hit
            exact hqty it (List.mem_filter.mp hit).1

theorem stockInv_step (s : DBState) (op : Op) (h : StockInv s) (hop : GoodOp op) :
    StockInv (step s op) := by
  cases op with
  | createProductOp b => exact stockInv_createProduct s b h hop
  | updateProductOp id b => exact stockInv_updateProduct s id b h hop
  | deleteProductOp id => exact stockInv_deleteProduct s id h
  | createCartOp => exact stockInv_createCart s h
  | addItemOp cid b => exact stockInv_addItem s cid b h hop
  | removeItemOp cid iid => exact stockInv_removeItem s cid iid h

theorem stockInv_run (s : DBState) (ops : List Op) (h : StockInv s)
    (hops : ∀ op ∈ ops, GoodOp op) : StockInv (run s ops) := by
  induction ops generalizing s with
  | nil => exact h
  | cons op ops ih =>
    exact ih (step s op) (stockInv_step s op h (hops op (List.mem_cons_self op ops)))
      (fun o ho => hops o (List.mem_cons_of_mem op ho))

/-- Claim C3 (amended): the handlers never validate the sign of
client-supplied numbers, so negative stock is reachable directly (see the
counterexample); stock non-negativity IS an invariant of every operation
sequence provided every supplied stock and quantity is non-negative, from
any well-formed store satisfying it. -/
theorem stock_nonneg_of_nonneg_inputs (s : DBState) (ops : List Op)
    (h : StockInv s) (hops : ∀ op ∈ ops, GoodOp op) :
    ∀ p ∈ (run s ops).products, 0 ≤ p.stock :=
  (stockInv_run s ops h hops).2.2.1

/-- A request sequence with non-negative supplied numbers. -/
def goodOps : List Op :=
  [.createProductOp ⟨"w", 999, none, 5⟩, .createCartOp, .addItemOp 1 ⟨1, 3⟩,
   .updateProductOp 1 { stock := some 4 }, .removeItemOp 1 1]

/-- Witness for the amended claim C3 on a concrete request sequence. -/
theorem stock_nonneg_of_nonneg_inputs_witness :
    StockInv initState ∧ (∀ op ∈ goodOps, GoodOp op) ∧
    ∀ p ∈ (run initState goodOps).products, 0 ≤ p.stock :=
  ⟨by decide, by decide,
    stock_nonneg_of_nonneg_inputs initState goodOps (by decide) (by decide)⟩

/-- Positivity of every stored cart-item quantity. -/
def QtyInv (s : DBState) : Prop :=
  ∀ it ∈ s.cartItems, 1 ≤ it.quantity

instance (s : DBState) : Decidable (QtyInv s) :=
  inferInstanceAs (Decidable (∀ it ∈ s.cartItems, 1 ≤ it.quantity))

/-- Requests whose supplied quantity is positive (the validation the
source never performs). -/
def PosQtyOp : Op → Prop
  | .addItemOp _ b => 1 ≤ b.quantity
  | _ => True

instance (op : Op) : Decidable (PosQtyOp op) :=
  match op with
  | .createProductOp _ => inferInstanceAs (Decidable True)
  | .updateProductOp _ _ => inferInstanceAs (Decidable True)
  | .deleteProductOp _ => inferInstanceAs (Decidable True)
  | .createCartOp => inferInstanceAs (Decidable True)
  | .addItemOp _ b => inferInstanceAs (Decidable (1 ≤ b.quantity))
  | .removeItemOp _ _ => inferInstanceAs (Decidable True)

theorem qtyInv_step (s : DBState) (op : Op) (h : QtyInv s) (hop : PosQtyOp op) :
    QtyInv (step s op) := by
  cases op with
  | createProductOp b =>
    by_cases hc : (s.products.any fun p => p.name == b.name) = true
    · simp only [step, createProduct, if_pos hc]; exact h
    · simp only [step, createProduct, if_neg hc]; exact h
  | updateProductOp id b =>
    cases hp : getProduct? s id with
    | none => simp only [step, updateProduct, hp]; exact h
    | some dbp =>
      by_cases hc : (b.name.isSome && s.products.any fun q => some q.name == b.name) = true
      · simp only [step, updateProduct, hp, if_pos hc]; exact h
      · simp only [step, updateProduct, hp, if_neg hc]; exact h
  | deleteProductOp id =>
    cases hp : getProduct? s id with
    | none => simp only [step, deleteProduct, hp]; exact h
    | some dbp => simp only [step, deleteProduct, hp]; exact h
  | createCartOp => exact h
  | addItemOp cid b =>
    simp only [step, addToCart, addToCartRun]
    cases hc : getCartRow? s cid with
    | none => exact h
    | some cart =>
      cases hp : getProduct? s b.productId with
      | none => exact h
      | some product =>
        by_cases hq : product.stock < b.quantity
        · simp only [if_pos hq]; exact h
        · simp only [if_neg hq]
          cases hpi : pairItems s cid b.productId with
          | nil =>
            intro it hit
            rcases List.mem_append.mp hit with hit' | hit'
            · exact h it hit'
            · rcases List.mem_singleton.mp hit' with rfl
              exact hop
          | cons e rest =>
            cases rest with
            | nil =>
              by_cases hq2 : product.stock < e.quantity + b.quantity
              · simp only [if_pos hq2]; exact h
              · simp only [if_neg hq2]
                intro it hit
                rcases List.mem_map.mp hit with ⟨it', hit', rfl⟩
                split
                · have h1 := h it' hit'
                  have h2 : (1 : Int) ≤ b.quantity := hop
                  show (1 : Int) ≤ it'.quantity + b.quantity
                  omega
                · exact h it' hit'
            | cons e2 rest2 => exact h
  | removeItemOp cid iid =>
    simp only [step, removeFromCart]
    cases hc : getCartRow? s cid with
    | none => exact h
    | some cart =>
      cases hi : getCartItem? s iid with
      | none => exact h
      | some ci =>
        by_cases hm : (ci.cartId != cid) = true
        · simp only [if_pos hm]; exact h
        · simp only [if_neg hm]
          cases hp : getProduct? s ci.productId with
          | none => exact h
          | some product =>
            intro it hit
            exact h it (List.mem_filter.mp hit).1

theorem qtyInv_run (s : DBState) (ops : List Op) (h : QtyInv s)
    (hops : ∀ op ∈ ops, PosQtyOp op) : QtyInv (run s ops) := by
  induction ops generalizing s with
  | nil => exact h
  | cons op ops ih =>
    exact ih (step s op) (qtyInv_step s op h (hops op (List.mem_cons_self op ops)))
      (fun o ho => hops o (List.mem_cons_of_mem op ho))

/-- Claim C7 (amended): `add_to_cart` performs no positivity check on the
requested quantity and will happily store a zero or negative quantity
(see the counterexample); cart-item quantities ARE positive in every
reachable state provided every requested quantity is positive. -/
theorem item_quantity_pos_of_pos_inputs (s : DBState) (ops : List Op)
    (h : QtyInv s) (hops : ∀ op ∈ ops, PosQtyOp op) :
    ∀ it ∈ (run s ops).cartItems, 1 ≤ it.quantity :=
  qtyInv_run s ops h hops

/-- Witness for the amended claim C7 on a concrete request sequence. -/
theorem item_quantity_pos_of_pos_inputs_witness :
    QtyInv initState ∧ (∀ op ∈ goodOps, PosQtyOp op) ∧
    ∀ it ∈ (run initState goodOps).cartItems, 1 ≤ it.quantity :=
  ⟨by decide, by decide,
    item_quantity_pos_of_pos_inputs initState goodOps (by decide) (by decide)⟩

/-- When every item in the list references an existing product, the
item-formatting loop drops nothing: the produced responses correspond
one-to-one to the items, and each carries the current product snapshot. -/
theorem formatAux (s : DBState) (l : List CartItem)
    (h : ∀ it ∈ l, (getProduct? s it.productId).isSome = true) :
    ((l.filterMap fun it => (getProduct? s it.productId).map fun p =>
        (⟨it.id, it.productId, it.quantity, ProductResponse.ofProduct p, it.createdAt⟩ : CartItemResponse)).map
      fun r => (r.id, r.productId, r.quantity)) = (l.map fun it => (it.id, it.productId, it.quantity)) ∧
    ∀ r ∈ (l.filterMap fun it => (getProduct? s it.productId).map fun p =>
        (⟨it.id, it.productId, it.quantity, ProductResponse.ofProduct p, it.createdAt⟩ : CartItemResponse)),
      ∃ p, getProduct? s r.productId = some p ∧ r.product = ProductResponse.ofProduct p := by
  induction l with
  | nil => exact ⟨rfl, by intro r hr; cases hr⟩
  | cons a l ih =>
    obtain ⟨pa, hpa⟩ := Option.isSome_iff_exists.mp (h a (List.mem_cons_self a l))
    obtain ⟨ih1, ih2⟩ := ih fun it hit => h it (List.mem_cons_of_mem a hit)
    constructor
    · simp only [List.filterMap_cons, hpa, Option.map_some', List.map_cons, ih1]
    · intro r hr
      simp only [List.filterMap_cons, hpa, Option.map_some'] at hr
      rcases List.mem_cons.mp hr with rfl | hr'
      · exact ⟨pa, hpa, rfl⟩
      · exact ih2 r hr'

/-- Claim C8 (amended): `get_cart` silently omits items whose referenced
product has been deleted (see the counterexample); when every item of the
cart references an existing product, it returns the cart with ALL of its
current items, each expanded with the product's current snapshot fetched
at call time. -/
theorem getCart_items_complete_when_products_exist (s : DBState) (cid : Nat) (cart : Cart)
    (hc : getCartRow? s cid = some cart)
    (hall : ∀ it ∈ s.cartItems, it.cartId = cid → (getProduct? s it.productId).isSome = true) :
    ∃ resp, getCart s cid = .ok resp ∧ resp.id = cart.id ∧ resp.createdAt = cart.createdAt ∧
      (resp.items.map fun r => (r.id, r.productId, r.quantity)) =
        ((s.cartItems.filter fun it => it.cartId == cid).map fun it =>
          (it.id, it.productId, it.quantity)) ∧
      ∀ r ∈ resp.items, ∃ p, getProduct? s r.productId = some p ∧
        r.product = ProductResponse.ofProduct p := by
  obtain ⟨h1, h2⟩ := formatAux s (s.cartItems.filter fun it => it.cartId == cid)
    (fun it hit => hall it (List.mem_filter.mp hit).1
      (by simpa using (List.mem_filter.mp hit).2))
  exact ⟨⟨cart.id, formatCartItems s cid, cart.createdAt⟩, by simp only [getCart, hc],
    rfl, rfl, h1, h2⟩

/-- Witness for the amended claim C8 at the concrete store `exFin`
(cart 1 holds one item of the existing product 1). -/
theorem getCart_items_complete_when_products_exist_witness :
    getCartRow? exFin 1 = some ⟨1, 0⟩ ∧
    (∀ it ∈ exFin.cartItems, it.cartId = 1 → (getProduct? exFin it.productId).isSome = true) ∧
    ∃ resp, getCart exFin 1 = .ok resp ∧ resp.id = (⟨1, 0⟩ : Cart).id ∧
      resp.createdAt = (⟨1, 0⟩ : Cart).createdAt ∧
      (resp.items.map fun r => (r.id, r.productId, r.quantity)) =
        ((exFin.cartItems.filter fun it => it.cartId == 1).map fun it =>
          (it.id, it.productId, it.quantity)) ∧
      ∀ r ∈ resp.items, ∃ p, getProduct? exFin r.productId = some p ∧
        r.product = ProductResponse.ofProduct p :=
  ⟨rfl, by decide,
    getCart_items_complete_when_products_exist exFin 1 ⟨1, 0⟩ rfl (by decide)⟩

/-- Claim C4 (amended): when no CartItem for the (cart, product) pair
exists before the call (the add creates a fresh item), a successful
`addItem` followed by `removeItem` on the resulting item restores the
product's stock to exactly its pre-add value.  (When the add merges into
an existing item the removal restores the whole merged line and
overshoots — see the counterexample.) -/
theorem add_remove_roundtrip_fresh (s : DBState) (cid : Nat) (body : CartItemCreate)
    (cart : Cart) (p : Product)
    (hc : getCartRow? s cid = some cart)
    (hp : getProduct? s body.productId = some p)
    (hs : ¬ p.stock < body.quantity)
    (hfresh : pairItems s cid body.productId = [])
    (hiid : getCartItem? s s.nextItemId = none) :
    ∃ r s1 r' s2,
      addToCart s cid body = .ok r s1 ∧
      removeFromCart s1 cid s.nextItemId = .ok r' s2 ∧
      stockOf s body.productId = some p.stock ∧
      stockOf s2 body.productId = some p.stock := by
  have hadd : addToCart s cid body =
      .ok ⟨cart.id,
            formatCartItems
              (decStock
                { s with
                  cartItems := s.cartItems ++ [⟨s.nextItemId, cid, body.productId, body.quantity, 0⟩],
                  nextItemId := s.nextItemId + 1 }
                body.productId body.quantity) cid,
            cart.createdAt⟩
          (decStock
            { s with
              cartItems := s.cartItems ++ [⟨s.nextItemId, cid, body.productId, body.quantity, 0⟩],
              nextItemId := s.nextItemId + 1 }
            body.productId body.quantity) := by
    simp only [addToCart, addToCartRun, hc, hp, if_neg hs, hfresh]
  set ci : CartItem := ⟨s.nextItemId, cid, body.productId, body.quantity, 0⟩ with hci
  set sItems : DBState :=
    { s with cartItems := s.cartItems ++ [ci], nextItemId := s.nextItemId + 1 } with hsItems
  set s1 : DBState := decStock sItems body.productId body.quantity with hs1
  have hc1 : getCartRow? s1 cid = some cart := hc
  have hfind : getCartItem? s1 s.nextItemId = some ci := by
    show (s.cartItems ++ [ci]).find? (fun it => it.id == s.nextItemId) = some ci
    rw [List.find?_append]
    rw [show s.cartItems.find? (fun it => it.id == s.nextItemId) = none from hiid]
    simp
  have hp1 : getProduct? s1 ci.productId = some { p with stock := p.stock - body.quantity } := by
    rw [hs1]
    rw [show ci.productId = body.productId from rfl]
    rw [getProduct?_decStock]
    rw [show getProduct? sItems body.productId = some p from hp]
    rfl
  have hrem : removeFromCart s1 cid s.nextItemId =
      .ok ⟨cart.id,
            formatCartItems
              { restoreStock s1 ci.productId ci.quantity with
                cartItems := s1.cartItems.filter fun it => it.id != s.nextItemId } cid,
            cart.createdAt⟩
          { restoreStock s1 ci.productId ci.quantity with
            cartItems := s1.cartItems.filter fun it => it.id != s.nextItemId } := by
    simp only [removeFromCart, hc1, hfind, hp1]
    rw [if_neg (by simp [hci])]
    rfl
  refine ⟨_, _, _, _, hadd, hrem, ?_, ?_⟩
  · rw [stockOf, hp]
    rfl
  · show ((restoreStock s1 ci.productId ci.quantity).products.find? fun q =>
        q.id == body.productId).map (fun q => q.stock) = some p.stock
    have := getProduct?_restoreStock s1 ci.productId ci.quantity
    rw [show ci.productId = body.productId from rfl] at this
    rw [show ((restoreStock s1 body.productId ci.quantity).products.find? fun q =>
        q.id == body.productId) = getProduct? (restoreStock s1 body.productId ci.quantity)
          body.productId from rfl]
    rw [this, hp1]
    show some (p.stock - body.quantity + ci.quantity) = some p.stock
    rw [show ci.quantity = body.quantity from rfl]
    rw [sub_add_cancel]

/-- Witness for the amended claim C4 at the concrete store `exBase`. -/
theorem add_remove_roundtrip_fresh_witness :
    getCartRow? exBase 1 = some ⟨1, 0⟩ ∧
    getProduct? exBase 1 = some ⟨1, "w", 999, none, 5, 0⟩ ∧
    ¬ (⟨1, "w", 999, none, 5, 0⟩ : Product).stock < (3 : Int) ∧
    pairItems exBase 1 1 = [] ∧
    getCartItem? exBase exBase.nextItemId = none ∧
    ∃ r s1 r' s2,
      addToCart exBase 1 ⟨1, 3⟩ = .ok r s1 ∧
      removeFromCart s1 1 exBase.nextItemId = .ok r' s2 ∧
      stockOf exBase 1 = some (⟨1, "w", 999, none, 5, 0⟩ : Product).stock ∧
      stockOf s2 1 = some (⟨1, "w", 999, none, 5, 0⟩ : Product).stock :=
  ⟨rfl, rfl, by decide, rfl, rfl,
    add_remove_roundtrip_fresh exBase 1 ⟨1, 3⟩ ⟨1, 0⟩ ⟨1, "w", 999, none, 5, 0⟩
      rfl rfl (by decide) rfl rfl⟩

/-- Claim C6: starting from a cart with no line for the product, two
successful `addItem` calls for the same (cart, product) pair leave
exactly one CartItem for the pair whose quantity is the sum of the two
added quantities, and each call decrements the product's stock by its own
quantity — no duplicate row is created. -/
theorem addToCart_twice_merges (s : DBState) (cid pid : Nat) (q1 q2 : Int)
    (cart : Cart) (p : Product)
    (hc : getCartRow? s cid = some cart)
    (hp : getProduct? s pid = some p)
    (hfresh : pairItems s cid pid = [])
    (h1 : ¬ p.stock < q1)
    (h2 : ¬ p.stock - q1 < q2)
    (h3 : ¬ p.stock - q1 < q1 + q2) :
    ∃ r1 s1 r2 s2,
      addToCart s cid ⟨pid, q1⟩ = .ok r1 s1 ∧
      addToCart s1 cid ⟨pid, q2⟩ = .ok r2 s2 ∧
      pairItems s2 cid pid = [⟨s.nextItemId, cid, pid, q1 + q2, 0⟩] ∧
      stockOf s1 pid = some (p.stock - q1) ∧
      stockOf s2 pid = some (p.stock - q1 - q2) := by
  set ci1 : CartItem := ⟨s.nextItemId, cid, pid, q1, 0⟩ with hci1
  set sIt : DBState :=
    { s with cartItems := s.cartItems ++ [ci1], nextItemId := s.nextItemId + 1 } with hsIt
  set s1 : DBState := decStock sIt pid q1 with hs1
  have hadd1 : addToCart s cid ⟨pid, q1⟩ =
      .ok ⟨cart.id, formatCartItems s1 cid, cart.createdAt⟩ s1 := by
    simp only [addToCart, addToCartRun, hc, hp, if_neg h1, hfresh]
  have hc1 : getCartRow? s1 cid = some cart := hc
  have hp1 : getProduct? s1 pid = some { p with stock := p.stock - q1 } := by
    rw [hs1, getProduct?_decStock]
    rw [show getProduct? sIt pid = some p from hp]
    rfl
  have hpi1 : pairItems s1 cid pid = [ci1] := by
    show (s.cartItems ++ [ci1]).filter
      (fun it => it.cartId == cid && it.productId == pid) = [ci1]
    rw [List.filter_append]
    rw [show s.cartItems.filter
      (fun it => it.cartId == cid && it.productId == pid) = [] from hfresh]
    simp [hci1]
  set s2 : DBState :=
    decStock
      { s1 with cartItems := s1.cartItems.map fun it =>
          if it.id == ci1.id then { it with quantity := it.quantity + q2 } else it }
      pid q2 with hs2
  have hadd2 : addToCart s1 cid ⟨pid, q2⟩ =
      .ok ⟨cart.id, formatCartItems s2 cid, cart.createdAt⟩ s2 := by
    simp only [addToCart, addToCartRun, hc1, hp1, hpi1, if_neg h2, if_neg h3]
  refine ⟨_, _, _, _, hadd1, hadd2, ?_, ?_, ?_⟩
  · show ((s.cartItems ++ [ci1]).map fun it =>
        if it.id == ci1.id then { it with quantity := it.quantity + q2 } else it).filter
        (fun it => it.cartId == cid && it.productId == pid)
      = [⟨s.nextItemId, cid, pid, q1 + q2, 0⟩]
    rw [List.map_append, List.filter_append]
    have hnil : ((s.cartItems.map fun it =>
        if it.id == ci1.id then { it with quantity := it.quantity + q2 } else it).filter
        (fun it => it.cartId == cid && it.productId == pid)) = [] := by
      rw [List.filter_eq_nil_iff]
      intro a ha
      rcases List.mem_map.mp ha with ⟨it, hit, rfl⟩
      have hfit := (List.filter_eq_nil_iff.mp (show s.cartItems.filter
        (fun it => it.cartId == cid && it.productId == pid) = [] from hfresh)) it hit
      by_cases hid : (it.id == ci1.id) = true
      · rw [if_pos hid]; exact hfit
      · rw [if_neg hid]; exact hfit
    rw [hnil]
    simp [hci1]
  · rw [stockOf, hp1]
    rfl
  · show ((decStock
        { s1 with cartItems := s1.cartItems.map fun it =>
            if it.id == ci1.id then { it with quantity := it.quantity + q2 } else it }
        pid q2).products.find? fun q => q.id == pid).map (fun q => q.stock)
      = some (p.stock - q1 - q2)
    rw [show ((decStock
        { s1 with cartItems := s1.cartItems.map fun it =>
            if it.id == ci1.id then { it with quantity := it.quantity + q2 } else it }
        pid q2).products.find? fun q => q.id == pid)
      = getProduct? (decStock
        { s1 with cartItems := s1.cartItems.map fun it =>
            if it.id == ci1.id then { it with quantity := it.quantity + q2 } else it }
        pid q2) pid from rfl]
    rw [getProduct?_decStock]
    rw [show getProduct?
        { s1 with cartItems := s1.cartItems.map fun it =>
            if it.id == ci1.id then { it with quantity := it.quantity + q2 } else it }
        pid = some { p with stock := p.stock - q1 } from hp1]
    rfl

/-- Witness for claim C6 at the concrete store `exBase`. -/
theorem addToCart_twice_merges_witness :
    getCartRow? exBase 1 = some ⟨1, 0⟩ ∧
    getProduct? exBase 1 = some ⟨1, "w", 999, none, 5, 0⟩ ∧
    pairItems exBase 1 1 = [] ∧
    ¬ (⟨1, "w", 999, none, 5, 0⟩ : Product).stock < (2 : Int) ∧
    ¬ (⟨1, "w", 999, none, 5, 0⟩ : Product).stock - 2 < (1 : Int) ∧
    ¬ (⟨1, "w", 999, none, 5, 0⟩ : Product).stock - 2 < (2 : Int) + 1 ∧
    ∃ r1 s1 r2 s2,
      addToCart exBase 1 ⟨1, 2⟩ = .ok r1 s1 ∧
      addToCart s1 1 ⟨1, 1⟩ = .ok r2 s2 ∧
      pairItems s2 1 1 = [⟨exBase.nextItemId, 1, 1, 2 + 1, 0⟩] ∧
      stockOf s1 1 = some ((⟨1, "w", 999, none, 5, 0⟩ : Product).stock - 2) ∧
      stockOf s2 1 = some ((⟨1, "w", 999, none, 5, 0⟩ : Product).stock - 2 - 1) :=
  ⟨rfl, rfl, rfl, by decide, by decide, by decide,
    addToCart_twice_merges exBase 1 1 2 1 ⟨1, 0⟩ ⟨1, "w", 999, none, 5, 0⟩
      rfl rfl rfl (by decide) (by decide) (by decide)⟩

/-- Claim C10: when the product referenced by the cart item no longer
exists, `remove_from_cart` does not answer with a domain 404 — the
`db.get` result is dereferenced with no `None` guard (line 299), hitting
the unguarded-access outcome with no commit. -/
theorem removeFromCart_dangling_product_unguarded (s : DBState) (cid iid : Nat)
    (cart : Cart) (ci : CartItem)
    (hc : getCartRow? s cid = some cart)
    (hi : getCartItem? s iid = some ci)
    (hm : ci.cartId = cid)
    (hp : getProduct? s ci.productId = none) :
    removeFromCart s cid iid = .attributeError s := by
  simp only [removeFromCart, hc, hi, hm, bne_self_eq_false, if_neg, hp]
  simp [hp]

/-- Witness for claim C10 at the reachable dangling store. -/
theorem removeFromCart_dangling_product_unguarded_witness :
    getCartRow? exDangling 1 = some ⟨1, 0⟩ ∧
    getCartItem? exDangling 1 = some ⟨1, 1, 1, 2, 0⟩ ∧
    (⟨1, 1, 1, 2, 0⟩ : CartItem).cartId = 1 ∧
    getProduct? exDangling 1 = none ∧
    removeFromCart exDangling 1 1 = .attributeError exDangling :=
  ⟨rfl, rfl, rfl, rfl,
    removeFromCart_dangling_product_unguarded exDangling 1 1 ⟨1, 0⟩ ⟨1, 1, 1, 2, 0⟩
      rfl rfl rfl rfl⟩

end Shop
